import Mathlib

/-!
Verification development for the cloud-cost-dashboard backend
(`backend/index.js`, an Express HTTP relay in front of the Gemini API).

The source registers ~20 `POST /api/ai/<route>` handlers that all follow the
same shape: destructure required body field(s), reject with `400` when a
required field is falsy, otherwise build a prompt, call the model, and answer
`200 {<outputKey>: text}` on success or `500 {error, details, ...}` on failure.

We embed the request payloads as JavaScript-like values, each route as a data
descriptor transcribed from its handler, and the shared handler shape as
`runRoute`.
-/

/-- JavaScript values as they occur in a parsed JSON request body.
Numbers are modelled as exact rationals (the source never relies on
binary-float rounding except in `toFixed`, modelled separately). -/
inductive JSValue where
  | jsUndefined : JSValue
  | jsNull : JSValue
  | jsBool : Bool → JSValue
  | jsNum : ℚ → JSValue
  | jsStr : String → JSValue
  | jsObj : List (String × JSValue) → JSValue

open JSValue

/-- JavaScript truthiness as used by the `if (!field)` validation checks:
`undefined`, `null`, `false`, `0` and `""` are falsy; every object
(including `{}`) is truthy. (`NaN` does not arise for exact rationals.) -/
def truthy : JSValue → Bool
  | jsUndefined => false
  | jsNull => false
  | jsBool b => b
  | jsNum q => q != 0
  | jsStr s => s != ""
  | jsObj _ => true

/-- A parsed JSON request body: an object, i.e. a finite map from field
names to values (keys unique after JSON parsing). -/
def Payload := List (String × JSValue)

/-- Reading a field of the body, as in `const \x7b f \x7d = req.body`:
an absent field destructures to `undefined`. -/
def getField (p : Payload) (f : String) : JSValue :=
  match p with
  | [] => jsUndefined
  | (k, v) :: rest => if k = f then v else getField rest f

/-- `Object.keys(v).length` for the values that can reach the insights
validation check (`!csvSummary` has already ruled out `null`/`undefined`):
an object yields its number of own keys, a string its length (index keys),
and primitives have no own enumerable keys. -/
def keysLen : JSValue → Nat
  | jsObj l => l.length
  | jsStr s => s.length
  | _ => 0

theorem truthy_emptyObj : truthy (jsObj []) = true := rfl

/-- Property read `v.f` on a JavaScript value (used by the insights handler
to echo `csvSummary` fields back): objects look up the key, anything else
yields `undefined`. (The handlers only read properties of values that have
already passed the truthiness check, so the null/undefined throw of real
JavaScript is unreachable there.) -/
def propGet (v : JSValue) (f : String) : JSValue :=
  match v with
  | JSValue.jsObj l => getField l f
  | _ => JSValue.jsUndefined

/-- Lookup of a key in a JSON response body. -/
def jget : List (String × JSValue) → String → Option JSValue
  | [], _ => none
  | (k, v) :: rest, f => if k = f then some v else jget rest f

/-- The error object surfaced by a failed `textOnlyModel.generateContent`
call: its `.message`, and `.response.candidates` (already stringified) when
the provider attached a structured response. -/
structure JsError where
  message : String
  responseCandidates : Option String

/-- Outcome of the single outbound model call: the response text on
success, or the thrown error. -/
inductive AdapterOutcome where
  | ok : String → AdapterOutcome
  | err : JsError → AdapterOutcome

/-- One HTTP response: status code plus JSON body (an object). -/
structure HttpResponse where
  status : Nat
  body : List (String × JSValue)

/-- `POST /api/ai/insights` validation:
`if (!csvSummary || Object.keys(csvSummary).length === 0)`. -/
def validateInsights (p : Payload) : Option String :=
  if !truthy (getField p "csvSummary") || keysLen (getField p "csvSummary") == 0 then
    some "No CSV summary provided for insights."
  else none

/-- `POST /api/ai/estimate` validation:
`if (!resourceType || !size || !region || !duration)`. -/
def validateEstimate (p : Payload) : Option String :=
  if !truthy (getField p "resourceType") || !truthy (getField p "size") ||
      !truthy (getField p "region") || !truthy (getField p "duration") then
    some "Missing required fields for estimation."
  else none

/-- `POST /api/ai/chat` validation in the final (enhanced) revision:
only `if (!userQuestion)`; `csvContext` is optional. -/
def validateChat (p : Payload) : Option String :=
  if !truthy (getField p "userQuestion") then
    some "No user question provided."
  else none

/-- `POST /api/ai/chat` validation in the first pasted revision:
`if (!userQuestion)` then `if (!csvContext)` — both fields required there. -/
def validateChatV1 (p : Payload) : Option String :=
  if !truthy (getField p "userQuestion") then
    some "No user question provided."
  else if !truthy (getField p "csvContext") then
    some "No CSV context provided for the chat."
  else none

/-- Shared validation of the seventeen `promptContext` routes:
`if (!promptContext) return res.status(400).json(\x7berror: <msg>\x7d)`. -/
def validatePromptContext (msg : String) (p : Payload) : Option String :=
  if !truthy (getField p "promptContext") then some msg else none

/-- Per-route descriptor, transcribed from the per-route Express handlers of
the final revision: path, required body fields, the human phrase the 400
message uses for the field, the validation check, the success body's output
key and construction, the fixed 500 `error` message, whether `details` falls
back to `'An unknown error occurred.'` on a falsy message, whether the 500
body carries `geminiErrorDetail`, and the generation options. -/
structure RouteSpec where
  path : String
  requiredFields : List String
  fieldPhrase : String
  validate : Payload → Option String
  outputKey : String
  okBody : Payload → String → List (String × JSValue)
  errorMsg500 : String
  detailFallback : Bool
  hasGeminiDetail : Bool
  maxOutputTokens : Nat
  temperature : Option ℚ

/-- The 500 response body: `error` is the route's fixed message; `details`
is `error.message` (with the `|| 'An unknown error occurred.'` fallback on
the routes that have it); routes added later also attach
`geminiErrorDetail`. -/
def errBody (r : RouteSpec) (e : JsError) : List (String × JSValue) :=
  [("error", JSValue.jsStr r.errorMsg500),
   ("details", JSValue.jsStr
      (if r.detailFallback && (e.message == "") then "An unknown error occurred."
       else e.message))] ++
  (if r.hasGeminiDetail then
    [("geminiErrorDetail", JSValue.jsStr
        (match e.responseCandidates with
         | some c => c
         | none => "No specific Gemini error response."))]
   else [])

/-- The shared relay-handler shape every route instantiates: reject with
`400 {error}` when validation fails (without calling the model), otherwise
call the model once and answer `200 {outputKey: text, ...}` or the 500 error
body. The boolean records whether the outbound model call was made.

Scope: the prompt-building step between validation and the call is elided
here. For the nineteen non-insights routes the builder is a template
interpolation of JSON-derived values and cannot throw, so this is exact;
the insights builder `formatSummaryForGemini` runs outside the handler's
try/catch and CAN throw on payload-controlled input, sending no response —
that full pipeline is modelled separately as `runInsightsFull`, and the
theorems stated over `runRoute` for the insights route are conditioned on
an adapter outcome, i.e. on executions whose build completed and reached
the call. -/
def runRoute (r : RouteSpec) (p : Payload) (out : AdapterOutcome) : HttpResponse × Bool :=
  match r.validate p with
  | some msg => (⟨400, [("error", JSValue.jsStr msg)]⟩, false)
  | none =>
    match out with
    | AdapterOutcome.ok text => (⟨200, r.okBody p text⟩, true)
    | AdapterOutcome.err e => (⟨500, errBody r e⟩, true)

/-- Success body of the insights route: the model text under `insights`
plus the echoed summary fields. -/
def insightsOkBody (p : Payload) (t : String) : List (String × JSValue) :=
  [("insights", JSValue.jsStr t),
   ("totalOverallCost", propGet (getField p "csvSummary") "totalOverallCost"),
   ("serviceCosts", propGet (getField p "csvSummary") "serviceCosts"),
   ("topExpensiveResources", propGet (getField p "csvSummary") "topExpensiveResources"),
   ("idleResources", propGet (getField p "csvSummary") "idleResources"),
   ("dataTruncated", propGet (getField p "csvSummary") "dataTruncated")]

/-- `POST /api/ai/insights`. -/
def insightsRoute : RouteSpec where
  path := "/api/ai/insights"
  requiredFields := ["csvSummary"]
  fieldPhrase := "CSV summary"
  validate := validateInsights
  outputKey := "insights"
  okBody := insightsOkBody
  errorMsg500 := "Failed to get AI insights from Gemini. Check backend logs for details."
  detailFallback := false
  hasGeminiDetail := false
  maxOutputTokens := 200
  temperature := none

/-- `POST /api/ai/estimate`. Its 400 message is generic; it names no
individual field, so `fieldPhrase` is empty. -/
def estimateRoute : RouteSpec where
  path := "/api/ai/estimate"
  requiredFields := ["resourceType", "size", "region", "duration"]
  fieldPhrase := ""
  validate := validateEstimate
  outputKey := "estimate"
  okBody := fun _ t => [("estimate", JSValue.jsStr t)]
  errorMsg500 := "Failed to get cost estimate from Gemini."
  detailFallback := false
  hasGeminiDetail := false
  maxOutputTokens := 150
  temperature := none

/-- `POST /api/ai/chat`, final (enhanced) revision. -/
def chatRoute : RouteSpec where
  path := "/api/ai/chat"
  requiredFields := ["userQuestion"]
  fieldPhrase := "user question"
  validate := validateChat
  outputKey := "answer"
  okBody := fun _ t => [("answer", JSValue.jsStr t)]
  errorMsg500 := "Failed to get AI chat response."
  detailFallback := false
  hasGeminiDetail := false
  maxOutputTokens := 300
  temperature := some (1/2)

/-- `POST /api/ai/chat` as first pasted (both `userQuestion` and
`csvContext` required there). -/
def chatRouteV1 : RouteSpec where
  path := "/api/ai/chat"
  requiredFields := ["userQuestion", "csvContext"]
  fieldPhrase := "user question"
  validate := validateChatV1
  outputKey := "answer"
  okBody := fun _ t => [("answer", JSValue.jsStr t)]
  errorMsg500 := "Failed to get AI chat response."
  detailFallback := false
  hasGeminiDetail := false
  maxOutputTokens := 250
  temperature := none

/-- Descriptor of a `promptContext` route (the seventeen handlers that
require only `promptContext` and respond `{<key>: text}`). -/
def mkCtxRoute (path msg400 key msg500 : String) (maxTok : Nat) (temp : ℚ) : RouteSpec where
  path := path
  requiredFields := ["promptContext"]
  fieldPhrase := "Prompt context"
  validate := validatePromptContext msg400
  outputKey := key
  okBody := fun _ t => [(key, JSValue.jsStr t)]
  errorMsg500 := msg500
  detailFallback := true
  hasGeminiDetail := true
  maxOutputTokens := maxTok
  temperature := some temp

def recommendationRoute : RouteSpec :=
  mkCtxRoute "/api/ai/recommendation"
    "Prompt context for recommendation is required."
    "recommendation" "Failed to generate AI recommendation." 50 (2/10)

def explainAnomalyRoute : RouteSpec :=
  mkCtxRoute "/api/ai/explain-anomaly"
    "Prompt context for anomaly explanation is required."
    "explanation" "Failed to generate AI anomaly explanation." 100 (4/10)

def resourceOptimizationRoute : RouteSpec :=
  mkCtxRoute "/api/ai/resource-optimization"
    "Prompt context for resource optimization is required."
    "optimizationPlan" "Failed to generate AI resource optimization plan." 200 (3/10)

def troubleshootRoute : RouteSpec :=
  mkCtxRoute "/api/ai/troubleshoot"
    "Prompt context for troubleshooting is required."
    "troubleshootResponse" "Failed to generate AI troubleshooting response." 250 (4/10)

def architectureAssistantRoute : RouteSpec :=
  mkCtxRoute "/api/ai/architecture-assistant"
    "Prompt context for architecture assistant is required."
    "architectureGuidance" "Failed to generate AI architectural guidance." 400 (7/10)

def securityComplianceRoute : RouteSpec :=
  mkCtxRoute "/api/ai/security-compliance"
    "Prompt context for security and compliance is required."
    "securityComplianceResponse" "Failed to generate AI security/compliance response." 200 (3/10)

def generatePlaybookRoute : RouteSpec :=
  mkCtxRoute "/api/ai/generate-playbook"
    "Prompt context for playbook generation is required."
    "playbook" "Failed to generate AI operational playbook." 600 (6/10)

def iamSimplifierRoute : RouteSpec :=
  mkCtxRoute "/api/ai/iam-simplifier"
    "Prompt context for IAM simplification is required."
    "iamGuidance" "Failed to generate AI IAM simplification guidance." 500 (4/10)

def drPlannerRoute : RouteSpec :=
  mkCtxRoute "/api/ai/dr-planner"
    "Prompt context for DR planning is required."
    "drPlan" "Failed to generate AI DR plan." 500 (6/10)

/-- The 400 message of this route is transcribed verbatim, mojibake
included. -/
def explainCloudRoute : RouteSpec :=
  mkCtxRoute "/api/ai/explain-cloud"
    "Prompt context for cloud explanation isзирается."
    "explanation" "Failed to generate AI cloud explanation." 500 (5/10)

def teachMeSetupRoute : RouteSpec :=
  mkCtxRoute "/api/ai/teach-me-setup"
    "Prompt context for learning content is required."
    "learningContent" "Failed to generate AI learning content." 800 (5/10)

def serviceDecisionRoute : RouteSpec :=
  mkCtxRoute "/api/ai/service-decision"
    "Prompt context for service decision is required."
    "serviceDecision" "Failed to generate AI service decision." 600 (5/10)

def securityPolicyExplainerRoute : RouteSpec :=
  mkCtxRoute "/api/ai/security-policy-explainer"
    "Prompt context for security policy explanation/generation is required."
    "policyExplanation" "Failed to generate AI security policy response." 700 (4/10)

def generateCloudCourseRoute : RouteSpec :=
  mkCtxRoute "/api/ai/generate-cloud-course"
    "Prompt context for course generation is required."
    "courseContent" "Failed to generate AI cloud course." 800 (6/10)

def interactiveCloudLabRoute : RouteSpec :=
  mkCtxRoute "/api/ai/interactive-cloud-lab"
    "Prompt context for interactive cloud lab is required."
    "labContent" "Failed to generate AI interactive cloud lab." 700 (6/10)

def flashcardsQuizzesRoute : RouteSpec :=
  mkCtxRoute "/api/ai/flashcards-quizzes"
    "Prompt context for flashcards and quizzes is required."
    "learningContent" "Failed to generate AI flashcards or quizzes." 700 (6/10)

def cloudCareerGuideRoute : RouteSpec :=
  mkCtxRoute "/api/ai/cloud-career-guide"
    "Prompt context for cloud career guide is required."
    "careerGuideContent" "Failed to generate AI cloud career guide." 800 (7/10)

/-- The route table of the final revision: the twenty
`POST /api/ai/<route>` handlers in registration order. -/
def routeTable : List RouteSpec :=
  [insightsRoute, estimateRoute, chatRoute, recommendationRoute,
   explainAnomalyRoute, resourceOptimizationRoute, troubleshootRoute,
   architectureAssistantRoute, securityComplianceRoute, generatePlaybookRoute,
   iamSimplifierRoute, drPlannerRoute, explainCloudRoute, teachMeSetupRoute,
   serviceDecisionRoute, securityPolicyExplainerRoute, generateCloudCourseRoute,
   interactiveCloudLabRoute, flashcardsQuizzesRoute, cloudCareerGuideRoute]

/-- `needle` occurs as a contiguous substring of `hay`. -/
def occursIn (needle hay : String) : Prop := needle.data <:+: hay.data

instance (n h : String) : Decidable (occursIn n h) :=
  List.decidableInfix n.data h.data

theorem runRoute_reject (r : RouteSpec) (p : Payload) (out : AdapterOutcome) (m : String)
    (hv : r.validate p = some m) :
    runRoute r p out = (⟨400, [("error", JSValue.jsStr m)]⟩, false) := by
  simp [runRoute, hv]

theorem runRoute_ok (r : RouteSpec) (p : Payload) (t : String)
    (hv : r.validate p = none) :
    runRoute r p (AdapterOutcome.ok t) = (⟨200, r.okBody p t⟩, true) := by
  simp [runRoute, hv]

theorem runRoute_err (r : RouteSpec) (p : Payload) (e : JsError)
    (hv : r.validate p = none) :
    runRoute r p (AdapterOutcome.err e) = (⟨500, errBody r e⟩, true) := by
  simp [runRoute, hv]

theorem jget_single_ne (k k2 : String) (v : JSValue) (h : k ≠ k2) :
    jget [(k, v)] k2 = none := by
  simp [jget, h]

/-- Every route of the table answers a successful model call with its own
output key bound to the model text (first key of the success body). -/
theorem okBody_key (r : RouteSpec) (hr : r ∈ routeTable) (p : Payload) (t : String) :
    jget (r.okBody p t) r.outputKey = some (JSValue.jsStr t) := by
  simp only [routeTable, List.mem_cons, List.not_mem_nil, or_false] at hr
  rcases hr with rfl|rfl|rfl|rfl|rfl|rfl|rfl|rfl|rfl|rfl|rfl|rfl|rfl|rfl|rfl|rfl|rfl|rfl|rfl|rfl <;>
    rfl

/-- No route uses `error` as its output key, so a 400 body carries no
output key. -/
theorem outputKey_ne_error (r : RouteSpec) (hr : r ∈ routeTable) :
    ("error" : String) ≠ r.outputKey := by
  simp only [routeTable, List.mem_cons, List.not_mem_nil, or_false] at hr
  rcases hr with rfl|rfl|rfl|rfl|rfl|rfl|rfl|rfl|rfl|rfl|rfl|rfl|rfl|rfl|rfl|rfl|rfl|rfl|rfl|rfl <;>
    decide

theorem ctx_validate_reject (m4 : String) (p : Payload)
    (h : truthy (getField p "promptContext") = false) :
    validatePromptContext m4 p = some m4 := by
  simp [validatePromptContext, h]

theorem chat_validate_reject (p : Payload)
    (h : truthy (getField p "userQuestion") = false) :
    validateChat p = some "No user question provided." := by
  simp [validateChat, h]

theorem estimate_validate_reject (p : Payload) (f : String)
    (hf : f ∈ ["resourceType", "size", "region", "duration"])
    (h : truthy (getField p f) = false) :
    validateEstimate p = some "Missing required fields for estimation." := by
  simp only [List.mem_cons, List.not_mem_nil, or_false] at hf
  rcases hf with rfl|rfl|rfl|rfl <;> simp [validateEstimate, h]

theorem insights_validate_reject (p : Payload)
    (h : truthy (getField p "csvSummary") = false ∨ keysLen (getField p "csvSummary") = 0) :
    validateInsights p = some "No CSV summary provided for insights." := by
  rcases h with h|h <;> simp [validateInsights, h]

/-- Common conclusion shape of a validation rejection: `400`, an `error`
message, no output key, and no outbound model call. -/
theorem reject_shape (r : RouteSpec) (p : Payload) (out : AdapterOutcome) (m : String)
    (hv : r.validate p = some m) (hk : ("error" : String) ≠ r.outputKey) :
    ∃ m2, (runRoute r p out).1.status = 400 ∧
      jget (runRoute r p out).1.body "error" = some (JSValue.jsStr m2) ∧
      jget (runRoute r p out).1.body r.outputKey = none ∧
      (runRoute r p out).2 = false := by
  refine ⟨m, ?_⟩
  rw [runRoute_reject r p out m hv]
  exact ⟨rfl, rfl, jget_single_ne _ _ _ hk, rfl⟩

/-- A paid-summary payload that passes the insights validation. -/
def insPayload : Payload :=
  [("csvSummary", JSValue.jsObj [("totalOverallCost", JSValue.jsStr "123.45")])]

/-- A payload that passes the `promptContext` validation. -/
def ctxPayload : Payload := [("promptContext", JSValue.jsStr "idle EC2 instance")]

/-- C1: for every POST route in the route table, when validation passes and
the model adapter succeeds with text `t`, the handler answers HTTP 200 with
the route's output key bound to exactly `t`. -/
theorem C1_success_envelope :
    ∀ r ∈ routeTable, ∀ (p : Payload) (t : String), r.validate p = none →
      (runRoute r p (AdapterOutcome.ok t)).1.status = 200 ∧
      jget (runRoute r p (AdapterOutcome.ok t)).1.body r.outputKey
        = some (JSValue.jsStr t) := by
  intro r hr p t hv
  rw [runRoute_ok r p t hv]
  exact ⟨rfl, okBody_key r hr p t⟩

/-- Witness for C1 at the insights route with a concrete summary. -/
theorem C1_success_envelope_witness :
    (runRoute insightsRoute insPayload (AdapterOutcome.ok "X")).1.status = 200 ∧
    jget (runRoute insightsRoute insPayload (AdapterOutcome.ok "X")).1.body
        insightsRoute.outputKey = some (JSValue.jsStr "X") :=
  C1_success_envelope insightsRoute (List.Mem.head _) insPayload "X" rfl

/-- C2: for every POST route, a request in which some required field is
missing or empty (falsy, or the empty-object case of insights) is answered
`400` with an `error` field, without the output key, and without any
outbound model call — whatever the adapter would have returned. -/
theorem C2_reject_before_call :
    ∀ r ∈ routeTable, ∀ (p : Payload) (out : AdapterOutcome),
      ((∃ f ∈ r.requiredFields, truthy (getField p f) = false) ∨
        (r.path = "/api/ai/insights" ∧ keysLen (getField p "csvSummary") = 0)) →
      ∃ m, (runRoute r p out).1.status = 400 ∧
        jget (runRoute r p out).1.body "error" = some (JSValue.jsStr m) ∧
        jget (runRoute r p out).1.body r.outputKey = none ∧
        (runRoute r p out).2 = false := by
  intro r hr p out h
  have hk := outputKey_ne_error r hr
  simp only [routeTable, List.mem_cons, List.not_mem_nil, or_false] at hr
  rcases hr with rfl|rfl|rfl|rfl|rfl|rfl|rfl|rfl|rfl|rfl|rfl|rfl|rfl|rfl|rfl|rfl|rfl|rfl|rfl|rfl
  · rcases h with ⟨f, hf, hfal⟩ | ⟨_, hkeys⟩
    · have hf2 : f = "csvSummary" := List.mem_singleton.mp hf
      subst hf2
      exact reject_shape _ p out _ (insights_validate_reject p (Or.inl hfal)) hk
    · exact reject_shape _ p out _ (insights_validate_reject p (Or.inr hkeys)) hk
  · rcases h with ⟨f, hf, hfal⟩ | ⟨hp, _⟩
    · exact reject_shape _ p out _ (estimate_validate_reject p f hf hfal) hk
    · exact absurd hp (by decide)
  · rcases h with ⟨f, hf, hfal⟩ | ⟨hp, _⟩
    · have hf2 : f = "userQuestion" := List.mem_singleton.mp hf
      subst hf2
      exact reject_shape _ p out _ (chat_validate_reject p hfal) hk
    · exact absurd hp (by decide)
  all_goals
    rcases h with ⟨f, hf, hfal⟩ | ⟨hp, _⟩
    · have hf2 : f = "promptContext" := List.mem_singleton.mp hf
      subst hf2
      exact reject_shape _ p out _ (ctx_validate_reject _ p hfal) hk
    · exact absurd hp (by decide)

/-- Witness for C2 at the recommendation route with `promptContext`
missing. -/
theorem C2_reject_before_call_witness :
    ∃ m, (runRoute recommendationRoute [] (AdapterOutcome.ok "X")).1.status = 400 ∧
      jget (runRoute recommendationRoute [] (AdapterOutcome.ok "X")).1.body "error"
        = some (JSValue.jsStr m) ∧
      jget (runRoute recommendationRoute [] (AdapterOutcome.ok "X")).1.body
        recommendationRoute.outputKey = none ∧
      (runRoute recommendationRoute [] (AdapterOutcome.ok "X")).2 = false :=
  C2_reject_before_call recommendationRoute
    (List.Mem.tail _ (List.Mem.tail _ (List.Mem.tail _ (List.Mem.head _))))
    [] (AdapterOutcome.ok "X")
    (Or.inl ⟨"promptContext", List.Mem.head _, rfl⟩)

/-- C10: validation uses JavaScript truthiness, so present-but-falsy
required fields are rejected: `0`, `""`, `false` and `null` are all falsy;
an estimate request with `duration: 0` (all other fields present), an
insights request with `csvSummary: \x7b\x7d`, and a chat request with
`userQuestion: ""` each yield `400`. -/
theorem C10_falsy_fields_rejected :
    truthy (JSValue.jsNum 0) = false ∧
    truthy (JSValue.jsStr "") = false ∧
    truthy (JSValue.jsBool false) = false ∧
    truthy JSValue.jsNull = false ∧
    (runRoute estimateRoute
        [("resourceType", JSValue.jsStr "EC2"), ("size", JSValue.jsStr "t3.micro"),
         ("region", JSValue.jsStr "us-east-1"), ("duration", JSValue.jsNum 0)]
        (AdapterOutcome.ok "X")).1
      = ⟨400, [("error", JSValue.jsStr "Missing required fields for estimation.")]⟩ ∧
    (runRoute insightsRoute [("csvSummary", JSValue.jsObj [])]
        (AdapterOutcome.ok "X")).1
      = ⟨400, [("error", JSValue.jsStr "No CSV summary provided for insights.")]⟩ ∧
    (runRoute chatRoute [("userQuestion", JSValue.jsStr "")]
        (AdapterOutcome.ok "X")).1
      = ⟨400, [("error", JSValue.jsStr "No user question provided.")]⟩ := by
  exact ⟨rfl, rfl, rfl, rfl, rfl, rfl, rfl⟩

/-- A chat request with a non-empty question and no CSV context. -/
def chatPayloadQ : Payload := [("userQuestion", JSValue.jsStr "What is EC2?")]

/-- C5 counterexample: the first pasted revision of the chat route rejects
a request that has a non-empty `userQuestion` but no `csvContext` with a
`400` validation error and never calls the model — contradicting the claim
that `csvContext` is optional on the chat route. -/
theorem C5_counterexample :
    runRoute chatRouteV1 chatPayloadQ (AdapterOutcome.ok "X")
      = (⟨400, [("error", JSValue.jsStr "No CSV context provided for the chat.")]⟩, false) ∧
    (runRoute chatRouteV1 chatPayloadQ (AdapterOutcome.ok "X")).1.status ≠ 200 := by
  exact ⟨rfl, by decide⟩

/-- C5 amended: in the final (enhanced) revision of the chat route,
`userQuestion` is the only required field: any payload with a truthy
`userQuestion` — in particular one without `csvContext` — passes
validation, and an adapter success yields `200 {answer: t}`. (In the first
pasted revision, `csvContext` was also required.) -/
theorem C5_amended_chat_optional_context :
    ∀ (p : Payload) (t : String),
      truthy (getField p "userQuestion") = true →
      runRoute chatRoute p (AdapterOutcome.ok t)
        = (⟨200, [("answer", JSValue.jsStr t)]⟩, true) := by
  intro p t h
  have hv : chatRoute.validate p = none := by
    simp [chatRoute, validateChat, h]
  rw [runRoute_ok _ _ _ hv]
  rfl

/-- Witness for the amended C5 at a concrete question with no context. -/
theorem C5_amended_witness :
    runRoute chatRoute chatPayloadQ (AdapterOutcome.ok "X")
      = (⟨200, [("answer", JSValue.jsStr "X")]⟩, true) :=
  C5_amended_chat_optional_context chatPayloadQ "X" rfl

/-- C3 counterexample: on the recommendation route an adapter failure whose
message is the empty string is answered with `details` equal to the
fallback `'An unknown error occurred.'`, not the underlying message. -/
theorem C3_counterexample :
    (runRoute recommendationRoute ctxPayload
        (AdapterOutcome.err ⟨"", none⟩)).1.status = 500 ∧
    jget (runRoute recommendationRoute ctxPayload
        (AdapterOutcome.err ⟨"", none⟩)).1.body "details"
      = some (JSValue.jsStr "An unknown error occurred.") ∧
    ("An unknown error occurred." : String) ≠ "" := by
  exact ⟨rfl, rfl, by decide⟩

/-- C3 amended: for every POST route, an adapter failure whose message `M`
is non-empty is answered `500` with the route's fixed `error` message and a
`details` field equal to `M`. (When `M` is empty, the routes that use the
`|| 'An unknown error occurred.'` fallback substitute that fixed string.) -/
theorem C3_amended_failure_details :
    ∀ r ∈ routeTable, ∀ (p : Payload) (e : JsError),
      r.validate p = none → e.message ≠ "" →
      (runRoute r p (AdapterOutcome.err e)).1.status = 500 ∧
      jget (runRoute r p (AdapterOutcome.err e)).1.body "error"
        = some (JSValue.jsStr r.errorMsg500) ∧
      jget (runRoute r p (AdapterOutcome.err e)).1.body "details"
        = some (JSValue.jsStr e.message) := by
  intro r _ p e hv hm
  rw [runRoute_err r p e hv]
  refine ⟨rfl, rfl, ?_⟩
  have hbe : (e.message == "") = false := by
    simpa using hm
  simp [errBody, jget, hbe]

/-- Witness for the amended C3 at the insights route with a concrete
failure message. -/
theorem C3_amended_witness :
    (runRoute insightsRoute insPayload
        (AdapterOutcome.err ⟨"network down", none⟩)).1.status = 500 ∧
    jget (runRoute insightsRoute insPayload
        (AdapterOutcome.err ⟨"network down", none⟩)).1.body "error"
      = some (JSValue.jsStr insightsRoute.errorMsg500) ∧
    jget (runRoute insightsRoute insPayload
        (AdapterOutcome.err ⟨"network down", none⟩)).1.body "details"
      = some (JSValue.jsStr ("network down" : String)) :=
  C3_amended_failure_details insightsRoute (List.Mem.head _) insPayload
    ⟨"network down", none⟩ rfl (by decide)

/-- C6 counterexample: the estimate route's 400 message is the generic
`'Missing required fields for estimation.'`; at a request with every
required field missing, the message names none of `resourceType`, `size`,
`region`, `duration`. -/
theorem C6_counterexample :
    (runRoute estimateRoute [] (AdapterOutcome.ok "X")).1
      = ⟨400, [("error", JSValue.jsStr "Missing required fields for estimation.")]⟩ ∧
    ¬ occursIn "resourceType" "Missing required fields for estimation." ∧
    ¬ occursIn "size" "Missing required fields for estimation." ∧
    ¬ occursIn "region" "Missing required fields for estimation." ∧
    ¬ occursIn "duration" "Missing required fields for estimation." := by
  exact ⟨rfl, by decide, by decide, by decide, by decide⟩

theorem ctx_validate_msg (m4 : String) (p : Payload) (m : String)
    (hv : validatePromptContext m4 p = some m) : m = m4 := by
  unfold validatePromptContext at hv
  split at hv
  · exact (Option.some.inj hv).symm
  · exact absurd hv (by simp)

theorem chat_validate_msg (p : Payload) (m : String)
    (hv : validateChat p = some m) : m = "No user question provided." := by
  unfold validateChat at hv
  split at hv
  · exact (Option.some.inj hv).symm
  · exact absurd hv (by simp)

theorem insights_validate_msg (p : Payload) (m : String)
    (hv : validateInsights p = some m) : m = "No CSV summary provided for insights." := by
  unfold validateInsights at hv
  split at hv
  · exact (Option.some.inj hv).symm
  · exact absurd hv (by simp)

/-- C6 amended: every route has one fixed 400 message; on every route
except estimate that message contains a non-empty phrase describing the
route's required field (`Prompt context`, `user question`, `CSV summary`),
while the estimate route's generic message names no individual field. -/
theorem C6_amended_message_names_field :
    ∀ r ∈ routeTable, r.path ≠ "/api/ai/estimate" →
      ∀ (p : Payload) (m : String), r.validate p = some m →
        r.fieldPhrase ≠ "" ∧ occursIn r.fieldPhrase m := by
  intro r hr hne p m hv
  simp only [routeTable, List.mem_cons, List.not_mem_nil, or_false] at hr
  rcases hr with rfl|rfl|rfl|rfl|rfl|rfl|rfl|rfl|rfl|rfl|rfl|rfl|rfl|rfl|rfl|rfl|rfl|rfl|rfl|rfl
  · have h2 := insights_validate_msg p m hv
    subst h2
    exact ⟨by decide, by decide⟩
  · exact absurd rfl hne
  · have h2 := chat_validate_msg p m hv
    subst h2
    exact ⟨by decide, by decide⟩
  all_goals
    have h2 := ctx_validate_msg _ p m hv
  all_goals
    subst h2
  all_goals
    exact ⟨by decide, by decide⟩

/-- Witness for the amended C6 at the recommendation route. -/
theorem C6_amended_witness :
    recommendationRoute.fieldPhrase ≠ "" ∧
    occursIn recommendationRoute.fieldPhrase
      "Prompt context for recommendation is required." :=
  C6_amended_message_names_field recommendationRoute
    (List.Mem.tail _ (List.Mem.tail _ (List.Mem.tail _ (List.Mem.head _))))
    (by decide) [] "Prompt context for recommendation is required." rfl

/-!
The insights handler is the one route whose prompt build runs OUTSIDE its
try/catch: `const prompt = formatSummaryForGemini(csvSummary)` (and two
`console.log`s) precede the `try`. `formatSummaryForGemini` evaluates
payload-controlled values, and a request that passes the validation check
can still make it throw synchronously — e.g. a truthy `serviceCosts` whose
`.length > 0` but which has no `forEach` (a non-empty string), or, for
array-shaped data, an entry whose cost has no `toFixed`. An uncaught throw
in the `async` handler rejects its promise; Express sends no response, so
neither a Response Envelope nor an Error Envelope is produced, and the
model is never called. The definitions below model that build step; the
other nineteen routes build their prompts by template interpolation of
JSON-derived values, which cannot throw, so `runRoute` elides their build
step soundly.
-/

/-- Whether one conditional `forEach` section of `formatSummaryForGemini`
evaluates without throwing, for a section value `sec` (the code is
`if (sec && sec.length > 0) { sec.forEach(...) }`):
a falsy `sec` skips the section; a non-empty string has `.length > 0` but
no `forEach`, so the call throws `TypeError`; an object enters the guard
only through a `length` member (modelled for absent or numeric members;
JavaScript would also coerce exotic `length` values), and then throws on
the missing `forEach`; a truthy number or `true` has no `.length`, so the
guard fails and the section is skipped. JSON arrays — the intended shape —
are outside the modelled `JSValue` domain; with them the loop body
additionally throws when an entry lacks a numeric cost
(`cost.toFixed(2)` / `res.totalCost.toFixed(2)`). -/
def buildStepOk (sec : JSValue) : Bool :=
  if truthy sec = false then true
  else
    match sec with
    | JSValue.jsStr s => s.length == 0
    | JSValue.jsObj o =>
      match getField o "length" with
      | JSValue.jsNum q => decide (q ≤ 0)
      | _ => true
    | _ => true

/-- Whether `formatSummaryForGemini(summary)` evaluates without throwing:
the header and billing lines interpolate values (never a throw for
JSON-derived data), then the three conditional `forEach` sections run in
order over `summary.serviceCosts`, `summary.topExpensiveResources` and
`summary.idleResources`. -/
def insightsBuildOk (summary : JSValue) : Bool :=
  buildStepOk (propGet summary "serviceCosts") &&
    buildStepOk (propGet summary "topExpensiveResources") &&
    buildStepOk (propGet summary "idleResources")

/-- Terminal outcome of one insights-handler invocation: a single HTTP
envelope, or an uncaught synchronous throw after which no response is
sent at all. -/
inductive InsightsOutcome where
  | envelope : HttpResponse → InsightsOutcome
  | thrown : InsightsOutcome

/-- The full `POST /api/ai/insights` pipeline including the prompt-building
step: validate, then run `formatSummaryForGemini` outside the try/catch —
if it throws, no envelope is sent and the model is never called —
otherwise call the model and answer as in `runRoute`. -/
def runInsightsFull (p : Payload) (out : AdapterOutcome) : InsightsOutcome × Bool :=
  match validateInsights p with
  | some msg =>
    (InsightsOutcome.envelope ⟨400, [("error", JSValue.jsStr msg)]⟩, false)
  | none =>
    if insightsBuildOk (getField p "csvSummary") then
      match out with
      | AdapterOutcome.ok text =>
        (InsightsOutcome.envelope ⟨200, insightsOkBody p text⟩, true)
      | AdapterOutcome.err e =>
        (InsightsOutcome.envelope ⟨500, errBody insightsRoute e⟩, true)
    else (InsightsOutcome.thrown, false)

/-- `{"csvSummary": {"serviceCosts": "ab"}}`: passes the insights
validation (truthy, one key), yet `"ab" && "ab".length > 0` holds and
`"ab".forEach` does not exist. -/
def badSummaryPayload : Payload :=
  [("csvSummary", JSValue.jsObj [("serviceCosts", JSValue.jsStr "ab")])]

/-- C8 (code bug): the exactly-one-envelope invariant fails on the insights
route. `badSummaryPayload` passes validation, but the prompt build throws
`TypeError: summary.serviceCosts.forEach is not a function` outside the
try/catch, so — whatever the adapter would have returned — the handler
produces no envelope at all and never calls the model: neither a Response
Envelope nor an Error Envelope is sent. -/
theorem C8_insights_uncaught_throw :
    insightsRoute.validate badSummaryPayload = none ∧
    ∀ out : AdapterOutcome,
      runInsightsFull badSummaryPayload out = (InsightsOutcome.thrown, false) :=
  ⟨rfl, fun _ => rfl⟩

theorem runRoute_congr (r : RouteSpec) (p₁ p₂ : Payload) (out : AdapterOutcome)
    (hv : r.validate p₁ = r.validate p₂)
    (hb : ∀ t, r.okBody p₁ t = r.okBody p₂ t) :
    runRoute r p₁ out = runRoute r p₂ out := by
  cases hv2 : r.validate p₂ with
  | some m =>
    rw [runRoute_reject r p₁ out m (hv.trans hv2), runRoute_reject r p₂ out m hv2]
  | none =>
    cases out with
    | ok t =>
      rw [runRoute_ok r p₁ t (hv.trans hv2), runRoute_ok r p₂ t hv2, hb t]
    | err e =>
      rw [runRoute_err r p₁ e (hv.trans hv2), runRoute_err r p₂ e hv2]

theorem ctx_runRoute_congr (path m4 key m5 : String) (mt : Nat) (tp : ℚ)
    (p₁ p₂ : Payload) (out : AdapterOutcome)
    (h : ∀ f, getField p₁ f = getField p₂ f) :
    runRoute (mkCtxRoute path m4 key m5 mt tp) p₁ out
      = runRoute (mkCtxRoute path m4 key m5 mt tp) p₂ out := by
  refine runRoute_congr _ _ _ _ ?_ (fun _ => rfl)
  show validatePromptContext m4 p₁ = validatePromptContext m4 p₂
  unfold validatePromptContext
  rw [h "promptContext"]

/-- C9: the whole request-to-envelope function of every route is a pure
function of the observable request fields: two requests whose bodies agree
on every field, given the same stubbed adapter text, produce identical
response envelopes (two-run determinism). -/
theorem C9_envelope_determinism :
    ∀ r ∈ routeTable, ∀ (p₁ p₂ : Payload) (t : String),
      (∀ f, getField p₁ f = getField p₂ f) →
      runRoute r p₁ (AdapterOutcome.ok t) = runRoute r p₂ (AdapterOutcome.ok t) := by
  intro r hr p₁ p₂ t h
  simp only [routeTable, List.mem_cons, List.not_mem_nil, or_false] at hr
  rcases hr with rfl|rfl|rfl|rfl|rfl|rfl|rfl|rfl|rfl|rfl|rfl|rfl|rfl|rfl|rfl|rfl|rfl|rfl|rfl|rfl
  · refine runRoute_congr _ _ _ _ ?_ ?_
    · show validateInsights p₁ = validateInsights p₂
      unfold validateInsights
      rw [h "csvSummary"]
    · intro t2
      show insightsOkBody p₁ t2 = insightsOkBody p₂ t2
      unfold insightsOkBody
      rw [h "csvSummary"]
  · refine runRoute_congr _ _ _ _ ?_ (fun _ => rfl)
    show validateEstimate p₁ = validateEstimate p₂
    unfold validateEstimate
    rw [h "resourceType", h "size", h "region", h "duration"]
  · refine runRoute_congr _ _ _ _ ?_ (fun _ => rfl)
    show validateChat p₁ = validateChat p₂
    unfold validateChat
    rw [h "userQuestion"]
  all_goals exact ctx_runRoute_congr _ _ _ _ _ _ p₁ p₂ _ h

/-- Witness for C9: re-running the recommendation route on the same
payload gives the same envelope. -/
theorem C9_witness :
    runRoute recommendationRoute ctxPayload (AdapterOutcome.ok "X")
      = runRoute recommendationRoute ctxPayload (AdapterOutcome.ok "X") :=
  C9_envelope_determinism recommendationRoute
    (List.Mem.tail _ (List.Mem.tail _ (List.Mem.tail _ (List.Mem.head _))))
    ctxPayload ctxPayload "X" (fun _ => rfl)

/-!
The security-policy-explainer route sniffs its input with `JSON.parse`:
a successful parse selects the "explain existing policy" template, a parse
error the "generate a new policy" template. The acceptor below follows the
JSON grammar recognised by `JSON.parse` (ECMA-404 / ECMA-262 `JSON.parse`):
a JSON text is `ws value ws` consuming the whole input; whitespace is
space, tab, line feed, carriage return; values are `null`, `true`, `false`,
numbers (`-? (0 | [1-9][0-9]*) (. [0-9]+)? ([eE][+-]?[0-9]+)?`), strings
(double-quoted, with the eight escapes and `\uXXXX`, no raw control
characters), arrays and objects. Each parse function returns the remaining
input on success. Recursion is fuelled; the top level supplies more fuel
than any input of that length can consume.
-/

def isJsonWs (c : Char) : Bool :=
  c = ' ' || c = '\t' || c = '\n' || c = '\r'

def skipWs : List Char → List Char
  | [] => []
  | c :: cs => if isJsonWs c then skipWs cs else c :: cs

def isHexDigitChar (c : Char) : Bool :=
  c.isDigit || ('a' ≤ c && c ≤ 'f') || ('A' ≤ c && c ≤ 'F')

/-- Body of a JSON string, entered after the opening quote. -/
def parseStringRest : Nat → List Char → Option (List Char)
  | 0, _ => none
  | _, [] => none
  | fuel+1, c :: cs =>
    if c = '"' then some cs
    else if c = '\\' then
      match cs with
      | [] => none
      | e :: cs2 =>
        if e = '"' || e = '\\' || e = '/' || e = 'b' || e = 'f' ||
            e = 'n' || e = 'r' || e = 't' then
          parseStringRest fuel cs2
        else if e = 'u' then
          match cs2 with
          | h1 :: h2 :: h3 :: h4 :: cs3 =>
            if isHexDigitChar h1 && isHexDigitChar h2 &&
                isHexDigitChar h3 && isHexDigitChar h4 then
              parseStringRest fuel cs3
            else none
          | _ => none
        else none
    else if c.toNat < 32 then none
    else parseStringRest fuel cs

/-- Optional exponent part of a JSON number. -/
def parseExpPart (s : List Char) : Option (List Char) :=
  match s with
  | e :: rest =>
    if e = 'e' || e = 'E' then
      let rest2 := match rest with
        | c :: cs => if c = '+' || c = '-' then cs else rest
        | [] => rest
      let sp := rest2.span Char.isDigit
      if sp.1.isEmpty then none else some sp.2
    else some s
  | [] => some s

/-- Optional fraction part, then exponent. -/
def parseFracPart (s : List Char) : Option (List Char) :=
  match s with
  | '.' :: rest =>
    let sp := rest.span Char.isDigit
    if sp.1.isEmpty then none else parseExpPart sp.2
  | _ => parseExpPart s

/-- Integer part: `0`, or a nonzero digit followed by digits. -/
def parseIntPart (s : List Char) : Option (List Char) :=
  match s with
  | '0' :: rest => parseFracPart rest
  | c :: rest =>
    if '1' ≤ c && c ≤ '9' then parseFracPart (rest.dropWhile Char.isDigit)
    else none
  | [] => none

def parseNumber (s : List Char) : Option (List Char) :=
  match s with
  | '-' :: rest => parseIntPart rest
  | _ => parseIntPart s

/-- Requires the literal characters `cs` at the head of the input. -/
def stripLit : List Char → List Char → Option (List Char)
  | [], s => some s
  | _ :: _, [] => none
  | c :: cs, d :: ds => if c = d then stripLit cs ds else none

mutual

/-- A JSON value, starting at a non-whitespace character. -/
def parseValue : Nat → List Char → Option (List Char)
  | 0, _ => none
  | fuel+1, s =>
    match s with
    | [] => none
    | c :: rest =>
      if c = '"' then parseStringRest (rest.length + 1) rest
      else if c = '\x7b' then parseObjRest fuel rest
      else if c = '[' then parseArrRest fuel rest
      else if c = 't' then stripLit "rue".data rest
      else if c = 'f' then stripLit "alse".data rest
      else if c = 'n' then stripLit "ull".data rest
      else if c = '-' || c.isDigit then parseNumber s
      else none

/-- After `[`: empty array or first element. -/
def parseArrRest : Nat → List Char → Option (List Char)
  | 0, _ => none
  | fuel+1, s =>
    match skipWs s with
    | ']' :: rest => some rest
    | s1 =>
      match parseValue fuel s1 with
      | none => none
      | some r => parseArrTail fuel r

/-- After an array element: `]`, or `,` and the next element. -/
def parseArrTail : Nat → List Char → Option (List Char)
  | 0, _ => none
  | fuel+1, s =>
    match skipWs s with
    | ']' :: rest => some rest
    | ',' :: rest =>
      match parseValue fuel (skipWs rest) with
      | none => none
      | some r => parseArrTail fuel r
    | _ => none

/-- After the opening brace: empty object or first member key. -/
def parseObjRest : Nat → List Char → Option (List Char)
  | 0, _ => none
  | fuel+1, s =>
    match skipWs s with
    | c :: rest =>
      if c = '\x7d' then some rest
      else if c = '"' then
        match parseStringRest (rest.length + 1) rest with
        | none => none
        | some r => parseMemberRest fuel r
      else none
    | [] => none

/-- After a member key: `:` and the member value. -/
def parseMemberRest : Nat → List Char → Option (List Char)
  | 0, _ => none
  | fuel+1, s =>
    match skipWs s with
    | ':' :: rest =>
      match parseValue fuel (skipWs rest) with
      | none => none
      | some r => parseObjTail fuel r
    | _ => none

/-- After a member value: closing brace, or `,` and the next member. -/
def parseObjTail : Nat → List Char → Option (List Char)
  | 0, _ => none
  | fuel+1, s =>
    match skipWs s with
    | c :: rest =>
      if c = '\x7d' then some rest
      else if c = ',' then
        match skipWs rest with
        | '"' :: rest2 =>
          match parseStringRest (rest2.length + 1) rest2 with
          | none => none
          | some r => parseMemberRest fuel r
        | _ => none
      else none
    | [] => none

end

/-- Whether `JSON.parse` accepts the string: a single value surrounded by
optional whitespace consuming the whole input. The fuel bound exceeds the
number of recursive descents any input of this length can make (every two
levels of descent consume at least one character). -/
def jsonAccepts (s : String) : Bool :=
  match parseValue (4 * s.length + 8) (skipWs s.data) with
  | some rest => (skipWs rest).isEmpty
  | none => false
def explainPrefixText : String :=
  "As an expert AWS Cloud Security Policy Explainer (IAM/SCP), analyze the following JSON policy. Translate it into natural, human-readable language, explaining exactly what permissions it grants or denies. Clearly highlight any dangerous or overly broad permissions (e.g., use of '*' wildcards, 'iam:PassRole', allowing \"NotAction\", or overly permissive \"Resource\"). Suggest least-privilege alternatives if obvious.\n            \n            Policy to explain:\n            ```json\n            "

def explainSuffixText : String :=
  "\n            ```\n            \n            Format your response clearly with bolded headings (e.g., **Policy Summary**, **Key Permissions Granted/Denied**, **Potential Risks & Best Practices**, **Recommendations for Least Privilege**). Ensure any JSON policy snippets you provide in recommendations are properly formatted."

def generatePrefixText : String :=
  "As an expert AWS Cloud Security Policy Generator, the user wants to understand how to write an AWS IAM/SCP policy for the following requirement. Provide a clear, human-readable explanation of what the policy would do, followed by a JSON policy snippet. Also, point out any common security considerations for such a policy (e.g., ensuring least privilege, adding conditions, using specific ARNs).\n            \n            User's Policy Request: \""

def generateSuffixText : String :=
  "\"\n            \n            Format your response clearly with bolded headings (e.g., **Policy Intent**, **Recommended Policy JSON**, **Security Considerations**). Ensure the recommended JSON policy snippet is properly formatted."

/-- The "explain existing policy" template of the security-policy-explainer
route (selected when `JSON.parse(promptContext)` succeeds), transcribed
verbatim with `promptContext` interpolated. -/
def policyExplainTemplate (promptContext : String) : String :=
  explainPrefixText ++ promptContext ++ explainSuffixText

/-- The "generate a new policy" template (selected when parsing fails). -/
def policyGenerateTemplate (promptContext : String) : String :=
  generatePrefixText ++ promptContext ++ generateSuffixText

/-- `queryType` of the security-policy-explainer handler. -/
inductive PolicyQueryType where
  | explanation
  | policy_request
  deriving DecidableEq

/-- `try { JSON.parse(promptContext); queryType = 'explanation' }
catch { queryType = 'policy_request' }`. -/
def policyQueryType (promptContext : String) : PolicyQueryType :=
  if jsonAccepts promptContext then PolicyQueryType.explanation
  else PolicyQueryType.policy_request

/-- The prompt the security-policy-explainer route sends to the model. -/
def buildSecurityPolicyPrompt (promptContext : String) : String :=
  match policyQueryType promptContext with
  | PolicyQueryType.explanation => policyExplainTemplate promptContext
  | PolicyQueryType.policy_request => policyGenerateTemplate promptContext

/-- Marker distinguishing the explain template. -/
def explainMarker : String := "Policy to explain:"

/-- Marker distinguishing the generate template. -/
def generateMarker : String := "User's Policy Request:"

theorem occursIn_append_right (n a b : String) (h : occursIn n a) :
    occursIn n (a ++ b) := by
  unfold occursIn at *
  rw [String.data_append]
  exact h.trans ⟨[], b.data, by simp⟩

set_option maxRecDepth 100000 in
/-- C4: the security-policy-explainer builder selects by JSON-parse sniff:
a parseable `promptContext` (any JSON value — also a bare number or an
empty object) yields the "explain existing policy" template, carrying its
marker; a non-parseable one yields the "generate a new policy" template. -/
theorem C4_policy_sniff :
    (∀ s : String,
      (jsonAccepts s = true →
        buildSecurityPolicyPrompt s = policyExplainTemplate s ∧
        occursIn explainMarker (buildSecurityPolicyPrompt s)) ∧
      (jsonAccepts s = false →
        buildSecurityPolicyPrompt s = policyGenerateTemplate s ∧
        occursIn generateMarker (buildSecurityPolicyPrompt s))) ∧
    jsonAccepts "5" = true ∧
    jsonAccepts "\x7b\x7d" = true ∧
    jsonAccepts "\x7b\"Version\":\"2012-10-17\"\x7d" = true ∧
    jsonAccepts "allow ec2 read access" = false := by
  refine ⟨?_, by decide, by decide, by decide, by decide⟩
  intro s
  constructor
  · intro hj
    have hb : buildSecurityPolicyPrompt s = policyExplainTemplate s := by
      unfold buildSecurityPolicyPrompt policyQueryType
      rw [hj]
      rfl
    refine ⟨hb, ?_⟩
    rw [hb]
    unfold policyExplainTemplate
    exact occursIn_append_right _ _ _
      (occursIn_append_right _ _ _ (by decide))
  · intro hj
    have hb : buildSecurityPolicyPrompt s = policyGenerateTemplate s := by
      unfold buildSecurityPolicyPrompt policyQueryType
      rw [hj]
      rfl
    refine ⟨hb, ?_⟩
    rw [hb]
    unfold policyGenerateTemplate
    exact occursIn_append_right _ _ _
      (occursIn_append_right _ _ _ (by decide))

/-- Witness for C4: a bare number selects explanation mode, free text
selects generation mode. -/
theorem C4_policy_sniff_witness :
    buildSecurityPolicyPrompt "5" = policyExplainTemplate "5" ∧
    occursIn explainMarker (buildSecurityPolicyPrompt "5") ∧
    buildSecurityPolicyPrompt "allow ec2 read access"
      = policyGenerateTemplate "allow ec2 read access" :=
  ⟨((C4_policy_sniff.1 "5").1 rfl).1,
   ((C4_policy_sniff.1 "5").1 rfl).2,
   ((C4_policy_sniff.1 "allow ec2 read access").2 rfl).1⟩

/-!
The insights prompt builder `formatSummaryForGemini`. Costs are `.toFixed(2)`
numbers; we model them as exact rationals with the spec-level rounding of
`Number.prototype.toFixed` (nearest hundredth, ties away from zero toward the
larger magnitude). Values the source interpolates verbatim
(`totalOverallCost`, `usageTypes`, `occurrences`, `durationDays`) are modelled
as the strings they render to; an absent/falsy `totalOverallCost` or
`resourceId` is modelled as `""`.
-/

def digitChar : Nat → Char
  | 0 => '0' | 1 => '1' | 2 => '2' | 3 => '3' | 4 => '4'
  | 5 => '5' | 6 => '6' | 7 => '7' | 8 => '8' | _ => '9'

def renderNatAux : Nat → Nat → List Char
  | 0, _ => []
  | fuel+1, n =>
    if n < 10 then [digitChar n]
    else renderNatAux fuel (n / 10) ++ [digitChar (n % 10)]

/-- Decimal rendering of a natural number. -/
def renderNat (n : Nat) : String := ⟨renderNatAux (n + 1) n⟩

/-- Exactly two decimal digits, zero padded. -/
def twoDigits (m : Nat) : String := ⟨[digitChar (m / 10), digitChar (m % 10)]⟩

/-- `x.toFixed(2)` for `x ≥ 0`: the integer closest to `100·x` (ties up),
i.e. `⌊100·x + 1/2⌋ = ⌊(200·num + den) / (2·den)⌋`, rendered with two
digits after the point. -/
def toFixed2Pos (x : ℚ) : String :=
  let n : Nat := ((200 * x.num + (x.den : Int)).fdiv (2 * (x.den : Int))).toNat
  renderNat (n / 100) ++ "." ++ twoDigits (n % 100)

/-- `Number.prototype.toFixed(2)`: negative numbers render their magnitude
behind a minus sign. -/
def toFixed2 (q : ℚ) : String :=
  if q.num < 0 then "-" ++ toFixed2Pos (-q) else toFixed2Pos q

/-- One entry of `topExpensiveResources` / `idleResources`. -/
structure ResourceEntry where
  resourceId : String
  service : String
  totalCost : ℚ
  usageTypes : String
  occurrences : String
  durationDays : String

/-- The summary object the insights route receives. -/
structure Summary where
  totalOverallCost : String
  serviceCosts : List (String × ℚ)
  topExpensiveResources : List ResourceEntry
  idleResources : List ResourceEntry
  dataTruncated : Bool

/-- `${res.resourceId || 'N/A'}`. -/
def renderResourceId (rid : String) : String := if rid = "" then "N/A" else rid

/-- `- ${service}: $${cost.toFixed(2)}` (without the terminating newline). -/
def serviceLineContent (service : String) (cost : ℚ) : String :=
  "- " ++ service ++ ": $" ++ toFixed2 cost

def serviceLine (service : String) (cost : ℚ) : String :=
  serviceLineContent service cost ++ "\n"

/-- `- Resource ID: ..., Service: ..., Cost: $..., Usage Types: ...,
Occurrences: ..., Duration: ... days` of `topExpensiveResources`. -/
def expensiveLineContent (r : ResourceEntry) : String :=
  "- Resource ID: " ++ renderResourceId r.resourceId ++ ", Service: " ++ r.service ++
    ", Cost: $" ++ toFixed2 r.totalCost ++ ", Usage Types: " ++ r.usageTypes ++
    ", Occurrences: " ++ r.occurrences ++ ", Duration: " ++ r.durationDays ++ " days"

def expensiveLine (r : ResourceEntry) : String := expensiveLineContent r ++ "\n"

/-- The idle-resources line (no `Usage Types` column). -/
def idleLineContent (r : ResourceEntry) : String :=
  "- Resource ID: " ++ renderResourceId r.resourceId ++ ", Service: " ++ r.service ++
    ", Cost: $" ++ toFixed2 r.totalCost ++ ", Occurrences: " ++ r.occurrences ++
    ", Duration: " ++ r.durationDays ++ " days"

def idleLine (r : ResourceEntry) : String := idleLineContent r ++ "\n"

/-- The `forEach` loops append one rendered line per entry. -/
def concatLines : List String → String
  | [] => ""
  | x :: xs => x ++ concatLines xs

def headerLine : String :=
  "Analyze the following AWS billing data summary. Provide a **brief, actionable summary** of key cost optimization insights. Focus on **top 3-5 recommendations** only. Use bullet points for recommendations. Keep the overall response **under 200 words**."

def insightsHeaderText : String := headerLine ++ "\n\n"

def svcHeaderLine : String := "Top 5 Services by Cost:"

def expHeaderLine : String := "Top 5 Expensive Individual Resources:"

def idleHeaderLine : String := "Potential Idle/Underutilized Resources (Low Cost/Usage):"

def truncLine : String :=
  "Note: The provided data was a sample (first 50,000 rows) due to large file size. Comprehensive analysis might require full dataset processing."

def truncNoteText : String := truncLine ++ "\n\n"

def footerLine : String :=
  "Based on this summary, provide the most impactful cost-saving actions, keeping the response concise and under 200 words. Start directly with the summary/recommendations."

def insightsFooterText : String := footerLine ++ "\n"

def serviceSection (l : List (String × ℚ)) : String :=
  if l.length > 0 then
    (svcHeaderLine ++ "\n") ++ concatLines (l.map (fun p => serviceLine p.1 p.2)) ++ "\n"
  else ""

def expensiveSection (l : List ResourceEntry) : String :=
  if l.length > 0 then
    (expHeaderLine ++ "\n") ++ concatLines (l.map expensiveLine) ++ "\n"
  else ""

def idleSection (l : List ResourceEntry) : String :=
  if l.length > 0 then
    (idleHeaderLine ++ "\n") ++ concatLines (l.map idleLine) ++ "\n"
  else ""

/-- `formatSummaryForGemini`, the insights prompt builder, assembled from
its `+=` chunks (string append is associative; we parenthesise to the
right). -/
def formatSummaryForGemini (s : Summary) : String :=
  insightsHeaderText ++
    (("Overall Billing Period: " ++
        (if s.totalOverallCost ≠ "" then "Data available" else "No data") ++ "\n") ++
    ((if s.totalOverallCost ≠ "" then
        "Total Unblended Cost: $" ++ s.totalOverallCost ++ "\n\n" else "") ++
    (serviceSection s.serviceCosts ++
    (expensiveSection s.topExpensiveResources ++
    (idleSection s.idleResources ++
    ((if s.dataTruncated then truncNoteText else "") ++
    insightsFooterText))))))

/-- Split a character sequence at every newline; a text with `n` newlines
yields `n+1` lines (a trailing newline yields a final empty line). -/
def lineSplit : List Char → List (List Char)
  | [] => [[]]
  | c :: cs =>
    if c = '\n' then [] :: lineSplit cs
    else
      match lineSplit cs with
      | [] => [[c]]
      | l :: ls => (c :: l) :: ls

theorem lineSplit_newline_cons (ys : List Char) :
    lineSplit ('\n' :: ys) = [] :: lineSplit ys := rfl

theorem lineSplit_append_newline (xs ys : List Char) (h : '\n' ∉ xs) :
    lineSplit (xs ++ '\n' :: ys) = xs :: lineSplit ys := by
  induction xs with
  | nil => simp [lineSplit_newline_cons]
  | cons c cs ih =>
    have hc : c ≠ '\n' := fun hh => h (hh ▸ List.mem_cons_self c cs)
    have hcs : '\n' ∉ cs := fun hh => h (List.mem_cons_of_mem c hh)
    have e1 : lineSplit ((c :: cs) ++ '\n' :: ys)
        = match lineSplit (cs ++ '\n' :: ys) with
          | [] => [[c]]
          | l :: ls => (c :: l) :: ls := by
      conv_lhs => rw [List.cons_append]; unfold lineSplit
      rw [if_neg hc]
    rw [e1, ih hcs]

theorem digitChar_ne_newline (m : Nat) : digitChar m ≠ '\n' := by
  unfold digitChar
  split <;> decide

theorem renderNatAux_no_newline (fuel n : Nat) : '\n' ∉ renderNatAux fuel n := by
  induction fuel generalizing n with
  | zero => simp [renderNatAux]
  | succ fuel ih =>
    unfold renderNatAux
    split
    · intro hm
      rw [List.mem_singleton] at hm
      exact digitChar_ne_newline _ hm.symm
    · intro hm
      rcases List.mem_append.mp hm with h|h
      · exact ih _ h
      · rw [List.mem_singleton] at h
        exact digitChar_ne_newline _ h.symm

theorem renderNat_no_newline (n : Nat) : '\n' ∉ (renderNat n).data :=
  renderNatAux_no_newline _ _

theorem twoDigits_no_newline (m : Nat) : '\n' ∉ (twoDigits m).data := by
  intro hm
  rcases List.mem_cons.mp hm with h|h
  · exact digitChar_ne_newline _ h.symm
  · rw [List.mem_singleton] at h
    exact digitChar_ne_newline _ h.symm

theorem toFixed2Pos_no_newline (x : ℚ) : '\n' ∉ (toFixed2Pos x).data := by
  unfold toFixed2Pos
  simp only [String.data_append, List.mem_append]
  rintro ((h|h)|h)
  · exact renderNat_no_newline _ h
  · exact absurd h (by decide)
  · exact twoDigits_no_newline _ h

theorem toFixed2_no_newline (q : ℚ) : '\n' ∉ (toFixed2 q).data := by
  unfold toFixed2
  split
  · simp only [String.data_append, List.mem_append]
    rintro (h|h)
    · exact absurd h (by decide)
    · exact toFixed2Pos_no_newline _ h
  · exact toFixed2Pos_no_newline _

/-- Concatenating newline-terminated rendered lines contributes exactly the
rendered contents as lines. -/
theorem lines_concatLines {α : Type} (f : α → String) (contents : α → List Char)
    (hf : ∀ a, (f a).data = contents a ++ ['\n'])
    (l : List α) (hnl : ∀ a ∈ l, '\n' ∉ contents a) (ys : List Char) :
    lineSplit ((concatLines (l.map f)).data ++ ys) = l.map contents ++ lineSplit ys := by
  induction l with
  | nil => simp [concatLines]
  | cons a l ih =>
    rw [List.map_cons]
    show lineSplit ((f a ++ concatLines (l.map f)).data ++ ys) = _
    rw [String.data_append, hf a, List.append_assoc, List.append_assoc,
        List.singleton_append]
    rw [lineSplit_append_newline _ _ (hnl a (List.mem_cons_self a l))]
    rw [ih (fun b hb => hnl b (List.mem_cons_of_mem a hb))]
    rfl

theorem lines_headerChunk (rest : String) :
    lineSplit ((insightsHeaderText ++ rest).data)
      = headerLine.data :: [] :: lineSplit rest.data := by
  rw [String.data_append]
  unfold insightsHeaderText
  rw [String.data_append, show ("\n\n".data : List Char) = '\n' :: ['\n'] from rfl]
  rw [List.append_assoc, List.cons_append]
  rw [lineSplit_append_newline _ _ (by decide)]
  rw [List.singleton_append, lineSplit_newline_cons]

theorem lines_billingChunk (v : String) (rest : String) :
    lineSplit ((("Overall Billing Period: " ++
          (if v ≠ "" then "Data available" else "No data") ++ "\n") ++ rest).data)
      = ("Overall Billing Period: " ++
          (if v ≠ "" then "Data available" else "No data")).data :: lineSplit rest.data := by
  rw [String.data_append]
  by_cases hv : v ≠ ""
  · rw [if_pos hv]
    rw [show ("Overall Billing Period: " ++ "Data available" ++ "\n").data
        = ("Overall Billing Period: " ++ "Data available").data ++ ['\n'] from rfl]
    rw [List.append_assoc, List.singleton_append,
        lineSplit_append_newline _ _ (by decide)]
  · rw [if_neg hv]
    rw [show ("Overall Billing Period: " ++ "No data" ++ "\n").data
        = ("Overall Billing Period: " ++ "No data").data ++ ['\n'] from rfl]
    rw [List.append_assoc, List.singleton_append,
        lineSplit_append_newline _ _ (by decide)]

theorem lines_totalChunk (v : String) (hnl : '\n' ∉ v.data) (rest : String) :
    lineSplit (((if v ≠ "" then "Total Unblended Cost: $" ++ v ++ "\n\n" else "")
        ++ rest).data)
      = (if v ≠ "" then
          [("Total Unblended Cost: $" ++ v).data, ([] : List Char)] else [])
        ++ lineSplit rest.data := by
  rw [String.data_append]
  by_cases hv : v ≠ ""
  · rw [if_pos hv, if_pos hv]
    have hno : '\n' ∉ ("Total Unblended Cost: $" ++ v).data := by
      rw [String.data_append]
      intro hm
      rcases List.mem_append.mp hm with h|h
      · exact absurd h (by decide)
      · exact hnl h
    rw [show ("Total Unblended Cost: $" ++ v ++ "\n\n").data
        = ("Total Unblended Cost: $" ++ v).data ++ '\n' :: ['\n'] from by
          rw [String.data_append]]
    rw [List.append_assoc, List.cons_append, lineSplit_append_newline _ _ hno,
        List.singleton_append, lineSplit_newline_cons]
    rfl
  · rw [if_neg hv, if_neg hv]
    simp

theorem lines_sectionChunk {α : Type} (hdrS : String) (hh : '\n' ∉ hdrS.data)
    (f : α → String) (contents : α → List Char)
    (hf : ∀ a, (f a).data = contents a ++ ['\n'])
    (l : List α) (hnl : ∀ a ∈ l, '\n' ∉ contents a) (rest : String) :
    lineSplit (((if l.length > 0 then
          (hdrS ++ "\n") ++ concatLines (l.map f) ++ "\n" else "") ++ rest).data)
      = (if l.length > 0 then
          hdrS.data :: (l.map contents ++ [([] : List Char)]) else [])
        ++ lineSplit rest.data := by
  rw [String.data_append]
  by_cases hl : l.length > 0
  · rw [if_pos hl, if_pos hl]
    simp only [String.data_append]
    simp only [List.append_assoc, List.singleton_append, List.cons_append,
      List.nil_append]
    rw [lineSplit_append_newline _ _ hh]
    rw [lines_concatLines f contents hf l hnl]
    rw [lineSplit_newline_cons]
  · rw [if_neg hl, if_neg hl]
    simp

theorem lines_truncChunk (b : Bool) (rest : String) :
    lineSplit (((if b then truncNoteText else "") ++ rest).data)
      = (if b then [truncLine.data, ([] : List Char)] else []) ++ lineSplit rest.data := by
  rw [String.data_append]
  cases b
  · simp
  · rw [if_pos rfl, if_pos rfl]
    unfold truncNoteText
    rw [String.data_append, show ("\n\n".data : List Char) = '\n' :: ['\n'] from rfl]
    rw [List.append_assoc, List.cons_append, lineSplit_append_newline _ _ (by decide),
        List.singleton_append, lineSplit_newline_cons]
    rfl

theorem lines_footerChunk :
    lineSplit insightsFooterText.data = [footerLine.data, ([] : List Char)] := by
  unfold insightsFooterText
  rw [String.data_append, show ("\n".data : List Char) = ['\n'] from rfl]
  rw [lineSplit_append_newline _ _ (by decide)]
  rfl

/-- The free-text fields of a resource entry render on a single line. -/
def nlFreeEntry (r : ResourceEntry) : Prop :=
  '\n' ∉ r.resourceId.data ∧ '\n' ∉ r.service.data ∧ '\n' ∉ r.usageTypes.data ∧
    '\n' ∉ r.occurrences.data ∧ '\n' ∉ r.durationDays.data

/-- The interpolated summary fields contain no newline (so each rendered
item stays on its own line, as the templates intend). -/
def nlFreeSummary (s : Summary) : Prop :=
  '\n' ∉ s.totalOverallCost.data ∧
    (∀ p ∈ s.serviceCosts, '\n' ∉ (p.1 : String).data) ∧
    (∀ r ∈ s.topExpensiveResources, nlFreeEntry r) ∧
    (∀ r ∈ s.idleResources, nlFreeEntry r)

instance (r : ResourceEntry) : Decidable (nlFreeEntry r) := by
  unfold nlFreeEntry
  infer_instance

instance (s : Summary) : Decidable (nlFreeSummary s) := by
  unfold nlFreeSummary
  infer_instance

theorem renderResourceId_no_newline (rid : String) (h : '\n' ∉ rid.data) :
    '\n' ∉ (renderResourceId rid).data := by
  unfold renderResourceId
  split
  · decide
  · exact h

theorem serviceLineContent_no_newline (svc : String) (q : ℚ)
    (hs : '\n' ∉ svc.data) : '\n' ∉ (serviceLineContent svc q).data := by
  intro hm
  unfold serviceLineContent at hm
  simp only [String.data_append, List.mem_append] at hm
  rcases hm with ((h|h)|h)|h
  · exact absurd h (by decide)
  · exact hs h
  · exact absurd h (by decide)
  · exact toFixed2_no_newline _ h

theorem expensiveLineContent_no_newline (r : ResourceEntry) (hr : nlFreeEntry r) :
    '\n' ∉ (expensiveLineContent r).data := by
  obtain ⟨h1, h2, h3, h4, h5⟩ := hr
  intro hm
  unfold expensiveLineContent at hm
  simp only [String.data_append, List.mem_append] at hm
  rcases hm with (((((((((((h|h)|h)|h)|h)|h)|h)|h)|h)|h)|h)|h)|h
  · exact absurd h (by decide)
  · exact renderResourceId_no_newline _ h1 h
  · exact absurd h (by decide)
  · exact h2 h
  · exact absurd h (by decide)
  · exact toFixed2_no_newline _ h
  · exact absurd h (by decide)
  · exact h3 h
  · exact absurd h (by decide)
  · exact h4 h
  · exact absurd h (by decide)
  · exact h5 h
  · exact absurd h (by decide)

theorem idleLineContent_no_newline (r : ResourceEntry) (hr : nlFreeEntry r) :
    '\n' ∉ (idleLineContent r).data := by
  obtain ⟨h1, h2, _, h4, h5⟩ := hr
  intro hm
  unfold idleLineContent at hm
  simp only [String.data_append, List.mem_append] at hm
  rcases hm with (((((((((h|h)|h)|h)|h)|h)|h)|h)|h)|h)|h
  · exact absurd h (by decide)
  · exact renderResourceId_no_newline _ h1 h
  · exact absurd h (by decide)
  · exact h2 h
  · exact absurd h (by decide)
  · exact toFixed2_no_newline _ h
  · exact absurd h (by decide)
  · exact h4 h
  · exact absurd h (by decide)
  · exact h5 h
  · exact absurd h (by decide)

/-- The lines of the built insights prompt, chunk by chunk. -/
def insightsPromptLines (s : Summary) : List (List Char) :=
  headerLine.data :: [] ::
    (("Overall Billing Period: " ++
        (if s.totalOverallCost ≠ "" then "Data available" else "No data")).data ::
    ((if s.totalOverallCost ≠ "" then
        [("Total Unblended Cost: $" ++ s.totalOverallCost).data, ([] : List Char)]
      else []) ++
    ((if s.serviceCosts.length > 0 then
        svcHeaderLine.data ::
          (s.serviceCosts.map (fun p => (serviceLineContent p.1 p.2).data) ++
            [([] : List Char)])
      else []) ++
    ((if s.topExpensiveResources.length > 0 then
        expHeaderLine.data ::
          (s.topExpensiveResources.map (fun r => (expensiveLineContent r).data) ++
            [([] : List Char)])
      else []) ++
    ((if s.idleResources.length > 0 then
        idleHeaderLine.data ::
          (s.idleResources.map (fun r => (idleLineContent r).data) ++
            [([] : List Char)])
      else []) ++
    ((if s.dataTruncated then [truncLine.data, ([] : List Char)] else []) ++
    [footerLine.data, ([] : List Char)]))))))

/-- Full line decomposition of the insights prompt for a summary whose
free-text fields are newline free. -/
theorem lines_formatSummary (s : Summary) (h : nlFreeSummary s) :
    lineSplit (formatSummaryForGemini s).data = insightsPromptLines s := by
  obtain ⟨h1, h2, h3, h4⟩ := h
  unfold formatSummaryForGemini
  rw [lines_headerChunk]
  rw [lines_billingChunk s.totalOverallCost]
  rw [lines_totalChunk s.totalOverallCost h1]
  unfold serviceSection
  rw [lines_sectionChunk svcHeaderLine (by decide) _
      (fun p => (serviceLineContent p.1 p.2).data)
      (fun p => by unfold serviceLine; rw [String.data_append])
      s.serviceCosts
      (fun p hp => serviceLineContent_no_newline p.1 p.2 (h2 p hp))]
  unfold expensiveSection
  rw [lines_sectionChunk expHeaderLine (by decide) expensiveLine
      (fun r => (expensiveLineContent r).data)
      (fun r => by unfold expensiveLine; rw [String.data_append])
      s.topExpensiveResources
      (fun r hrr => expensiveLineContent_no_newline r (h3 r hrr))]
  unfold idleSection
  rw [lines_sectionChunk idleHeaderLine (by decide) idleLine
      (fun r => (idleLineContent r).data)
      (fun r => by unfold idleLine; rw [String.data_append])
      s.idleResources
      (fun r hrr => idleLineContent_no_newline r (h4 r hrr))]
  rw [lines_truncChunk s.dataTruncated]
  rw [lines_footerChunk]
  rfl

theorem svcHeader_ne_overall (X : String) :
    svcHeaderLine.data ≠ ("Overall Billing Period: " ++ X).data := by
  intro he
  rw [String.data_append] at he
  have h1 := congrArg (List.take 1) he
  rw [List.take_append_of_le_length (by decide)] at h1
  exact absurd h1 (by decide)

theorem svcHeader_ne_total (X : String) :
    svcHeaderLine.data ≠ ("Total Unblended Cost: $" ++ X).data := by
  intro he
  rw [String.data_append] at he
  have h1 := congrArg (List.take 3) he
  rw [List.take_append_of_le_length (by decide)] at h1
  exact absurd h1 (by decide)

theorem svcHeader_ne_dash (t : List Char) :
    svcHeaderLine.data ≠ "- Resource ID: ".data ++ t := by
  intro he
  have h1 := congrArg (List.take 1) he
  rw [List.take_append_of_le_length (by decide)] at h1
  exact absurd h1 (by decide)

/-- C7: in the insights prompt builder, an absent or empty `serviceCosts`
yields a prompt without the `Top 5 Services by Cost:` section (its header
occurs as no line of the prompt), while a non-empty one renders every
`[service, cost]` pair as its own `- <service>: $<cost.toFixed(2)>` line.
(Interpolated fields are assumed newline free, so lines are well formed.) -/
theorem C7_insights_service_section :
    ∀ s : Summary, nlFreeSummary s →
      (s.serviceCosts = [] →
        svcHeaderLine.data ∉ lineSplit (formatSummaryForGemini s).data) ∧
      (∀ svc cost, (svc, cost) ∈ s.serviceCosts →
        (serviceLineContent svc cost).data ∈
          lineSplit (formatSummaryForGemini s).data) := by
  intro s h
  rw [lines_formatSummary s h]
  constructor
  · intro hsc
    unfold insightsPromptLines
    rw [hsc]
    simp only [List.length_nil]
    rw [if_neg (by decide : ¬ (0 > 0))]
    intro hmem
    rcases List.mem_cons.mp hmem with he | hmem
    · exact absurd he (by decide)
    rcases List.mem_cons.mp hmem with he | hmem
    · exact absurd he (by decide)
    rcases List.mem_cons.mp hmem with he | hmem
    · exact svcHeader_ne_overall _ he
    rcases List.mem_append.mp hmem with he | hmem
    · by_cases hv : s.totalOverallCost ≠ ""
      · rw [if_pos hv] at he
        rcases List.mem_cons.mp he with he | he
        · exact svcHeader_ne_total _ he
        · rw [List.mem_singleton] at he
          exact absurd he (by decide)
      · rw [if_neg hv] at he
        exact absurd he (List.not_mem_nil _)
    rw [List.nil_append] at hmem
    rcases List.mem_append.mp hmem with he | hmem
    · by_cases hl : s.topExpensiveResources.length > 0
      · rw [if_pos hl] at he
        rcases List.mem_cons.mp he with he | he
        · exact absurd he (by decide)
        rcases List.mem_append.mp he with he | he
        · rcases List.mem_map.mp he with ⟨r, _, heq⟩
          unfold expensiveLineContent at heq
          simp only [String.data_append, List.append_assoc] at heq
          exact svcHeader_ne_dash _ heq.symm
        · rw [List.mem_singleton] at he
          exact absurd he (by decide)
      · rw [if_neg hl] at he
        exact absurd he (List.not_mem_nil _)
    rcases List.mem_append.mp hmem with he | hmem
    · by_cases hl : s.idleResources.length > 0
      · rw [if_pos hl] at he
        rcases List.mem_cons.mp he with he | he
        · exact absurd he (by decide)
        rcases List.mem_append.mp he with he | he
        · rcases List.mem_map.mp he with ⟨r, _, heq⟩
          unfold idleLineContent at heq
          simp only [String.data_append, List.append_assoc] at heq
          exact svcHeader_ne_dash _ heq.symm
        · rw [List.mem_singleton] at he
          exact absurd he (by decide)
      · rw [if_neg hl] at he
        exact absurd he (List.not_mem_nil _)
    rcases List.mem_append.mp hmem with he | hmem
    · cases hb : s.dataTruncated
      · rw [hb] at he
        simp at he
      · rw [hb] at he
        rw [if_pos rfl] at he
        rcases List.mem_cons.mp he with he | he
        · exact absurd he (by decide)
        · rw [List.mem_singleton] at he
          exact absurd he (by decide)
    · rcases List.mem_cons.mp hmem with he | he
      · exact absurd he (by decide)
      · rw [List.mem_singleton] at he
        exact absurd he (by decide)
  · intro svc cost hmem
    unfold insightsPromptLines
    have hlen : s.serviceCosts.length > 0 :=
      List.length_pos.mpr (List.ne_nil_of_mem hmem)
    rw [if_pos hlen]
    apply List.mem_cons_of_mem
    apply List.mem_cons_of_mem
    apply List.mem_cons_of_mem
    apply List.mem_append_right
    apply List.mem_append_left
    apply List.mem_cons_of_mem
    apply List.mem_append_left
    exact List.mem_map_of_mem _ hmem

/-- A summary with one service-cost pair. -/
def summaryWithServices : Summary where
  totalOverallCost := "123.45"
  serviceCosts := [("AmazonEC2", (7 : ℚ))]
  topExpensiveResources := []
  idleResources := []
  dataTruncated := true

/-- A summary with no service costs but another rendered section. -/
def summaryNoServices : Summary where
  totalOverallCost := ""
  serviceCosts := []
  topExpensiveResources :=
    [{ resourceId := "", service := "AmazonS3", totalCost := (3 : ℚ),
       usageTypes := "Std", occurrences := "4", durationDays := "30" }]
  idleResources := []
  dataTruncated := false

/-- Witness for C7 at two concrete summaries. -/
theorem C7_witness :
    svcHeaderLine.data ∉ lineSplit (formatSummaryForGemini summaryNoServices).data ∧
    (serviceLineContent "AmazonEC2" 7).data ∈
      lineSplit (formatSummaryForGemini summaryWithServices).data :=
  ⟨(C7_insights_service_section summaryNoServices
      ⟨by decide, by decide, by decide, by decide⟩).1 rfl,
   (C7_insights_service_section summaryWithServices
      ⟨by decide, by decide, by decide, by decide⟩).2 "AmazonEC2" 7 (List.Mem.head _)⟩
